import Mathlib

/-!
Verification development for the news-ingestion backend.

Shallow embedding of the pipeline (`base_scraper_orm.py`, `scrapying/setn_new.py`),
the ORM store used by the scrapers (`news_orm_db.py` together with the session
semantics of `database_orm.py` and the unique constraint of `db/models.py`),
the per-source id extraction and date normalization, and the API scheduler
(`api/scheduler.py`, `api/app.py`).

Conventions of the embedding:
* A SQLAlchemy session is modelled by explicit state passing over `NewsDB`.
  `sessionmaker` is configured with `autoflush=False`, so a query issued while
  the session holds pending (added but unflushed) objects sees only the
  committed rows; the embedding therefore checks existence against the state
  the session was opened on.
* The `UNIQUE (news_source, news_id)` table constraint is enforced at commit
  time by `commitRows`: a commit whose resulting table would contain two rows
  with the same key is refused (`none`), modelling the `IntegrityError` raised
  by the database followed by the rollback performed in `get_db_session`.
* A database that is unreachable is modelled by a `healthy : Bool` flag on
  every operation that opens a session; `healthy = false` makes the session
  body raise, which the embedding propagates as the `except` path of the
  corresponding Python function.
-/

/-- One row of the `news` table (`db/models.py`, class `News`).  The `pk` and
`create_time` columns are represented by the position of the row in
`NewsDB.rows` (rows are appended in insertion order). -/
structure NewsRow where
  news_id : String
  news_source : String
  author : String
  title : String
  url : String
  publish_time : String
deriving Repr, DecidableEq

/-- The unique key of a row: the pair covered by
`UniqueConstraint('news_source', 'news_id')` in `db/models.py`. -/
def NewsRow.key (r : NewsRow) : String × String := (r.news_source, r.news_id)

/-- The state of the `news` table: committed rows in insertion order. -/
structure NewsDB where
  rows : List NewsRow
deriving Repr, DecidableEq

/-- The invariant guarded by `uq_news_source_id`: no two committed rows share
the `(news_source, news_id)` pair. -/
def NewsDB.pairsUnique (db : NewsDB) : Prop :=
  (db.rows.map NewsRow.key).Nodup

instance (db : NewsDB) : Decidable db.pairsUnique := by
  unfold NewsDB.pairsUnique; infer_instance

/-- `session.query(News).filter(and_(news_source == s, news_id == i)).first()
is not None` — an existence query against the committed table state. -/
def NewsDB.existsPair (db : NewsDB) (source id : String) : Bool :=
  db.rows.any (fun r => r.news_source == source && r.news_id == id)

/-- Committing a set of pending rows: the database accepts the transaction
only if the resulting table still satisfies the unique constraint; otherwise
it raises `IntegrityError` and `get_db_session` (`database_orm.py`) rolls the
whole transaction back, leaving the table unchanged (`none`). -/
def NewsDB.commitRows (db : NewsDB) (pending : List NewsRow) : Option NewsDB :=
  if ((db.rows ++ pending).map NewsRow.key).Nodup then
    some ⟨db.rows ++ pending⟩
  else
    none

namespace NewsORMDatabase

/-- `NewsORMDatabase.insert_news_item` (`news_orm_db.py`): pre-insert
existence check, then add + commit; `IntegrityError` is caught and converted
to `False`; returns whether a row was inserted together with the new table
state.  The existence check and the commit may act on different snapshots of
the table (`checkDb` vs `db`), modelling a concurrent writer slipping in
between the optimistic check and the write. -/
def insert_news_item_raced (checkDb db : NewsDB) (item : NewsRow) :
    Bool × NewsDB :=
  if checkDb.existsPair item.news_source item.news_id then
    (false, db)
  else
    match db.commitRows [item] with
    | some db' => (true, db')
    | none => (false, db)

/-- `insert_news_item` in the common race-free case: the check and the commit
see the same table state. -/
def insert_news_item (db : NewsDB) (item : NewsRow) : Bool × NewsDB :=
  insert_news_item_raced db db item

/-- `NewsORMDatabase.insert_news_batch` (`news_orm_db.py`, the store imported
by `base_scraper_orm.py`).  One session for the whole batch: each item is
checked against the committed state (autoflush is off, so pending adds are
invisible to the per-item query) and added if its pair is absent;
`insert_count` counts the adds; the single commit at the `with`-block exit
either succeeds or raises out of the function (`Except.error`), in which case
the rollback leaves the table unchanged.  `healthy = false` models the session
itself failing, which also raises out of the function. -/
def insert_news_batch (healthy : Bool) (db : NewsDB) (items : List NewsRow) :
    Except Unit (Nat × NewsDB) :=
  if healthy then
    let pending := items.filter
      (fun it => !(db.existsPair it.news_source it.news_id))
    match db.commitRows pending with
    | some db' => Except.ok (pending.length, db')
    | none => Except.error ()
  else
    Except.error ()

/-- The session body of `news_exists`: may raise when the store is down. -/
def news_exists_query (healthy : Bool) (db : NewsDB) (source id : String) :
    Except Unit Bool :=
  if healthy then Except.ok (db.existsPair source id) else Except.error ()

/-- `NewsORMDatabase.news_exists`: the session body wrapped in
`try/except`, returning `False` on any database error. -/
def news_exists (healthy : Bool) (db : NewsDB) (source id : String) : Bool :=
  match news_exists_query healthy db source id with
  | Except.ok b => b
  | Except.error _ => false

/-- The session body of `get_news_count`. -/
def get_news_count_query (healthy : Bool) (db : NewsDB) : Except Unit Nat :=
  if healthy then Except.ok db.rows.length else Except.error ()

/-- `NewsORMDatabase.get_news_count`: returns `0` on any database error. -/
def get_news_count (healthy : Bool) (db : NewsDB) : Nat :=
  match get_news_count_query healthy db with
  | Except.ok n => n
  | Except.error _ => 0

/-- Distinct sources in first-appearance order (the grouping key set of the
`group_by(News.news_source)` query). -/
def sourcesOf (db : NewsDB) : List String :=
  (db.rows.map (fun r => r.news_source)).eraseDups

/-- Rows counted per source. -/
def countFor (db : NewsDB) (s : String) : Nat :=
  (db.rows.filter (fun r => r.news_source == s)).length

/-- The session body of `get_news_count_by_source`: `(source, count)` pairs
ordered by count descending. -/
def get_news_count_by_source_query (healthy : Bool) (db : NewsDB) :
    Except Unit (List (String × Nat)) :=
  if healthy then
    Except.ok (((sourcesOf db).map (fun s => (s, countFor db s))).mergeSort
      (fun a b => b.2 ≤ a.2))
  else Except.error ()

/-- `NewsORMDatabase.get_news_count_by_source`: returns `[]` on any database
error. -/
def get_news_count_by_source (healthy : Bool) (db : NewsDB) :
    List (String × Nat) :=
  match get_news_count_by_source_query healthy db with
  | Except.ok l => l
  | Except.error _ => []

/-- The session body of `get_recent_news`: rows ordered by `create_time`
descending (reverse insertion order), limited. -/
def get_recent_news_query (healthy : Bool) (db : NewsDB) (limit : Nat) :
    Except Unit (List NewsRow) :=
  if healthy then Except.ok (db.rows.reverse.take limit) else Except.error ()

/-- `NewsORMDatabase.get_recent_news`: returns `[]` on any database error. -/
def get_recent_news (healthy : Bool) (db : NewsDB) (limit : Nat) :
    List NewsRow :=
  match get_recent_news_query healthy db limit with
  | Except.ok l => l
  | Except.error _ => []

end NewsORMDatabase

/-! ## Dates and times

`datetime` values are modelled at one-second granularity (the scrapers format
with `%H:%M:%S`; sub-second fields never influence an observable string). -/

/-- A naive `datetime.datetime` value. -/
structure PyDateTime where
  year : Nat
  month : Nat
  day : Nat
  hour : Nat
  minute : Nat
  second : Nat
deriving Repr, DecidableEq

/-- Gregorian leap-year rule, as implemented by `datetime`. -/
def isLeapYear (y : Nat) : Bool :=
  (y % 4 == 0 && y % 100 != 0) || y % 400 == 0

/-- Length of month `m` of year `y` (months numbered 1..12). -/
def daysInMonth (y m : Nat) : Nat :=
  if m == 2 then (if isLeapYear y then 29 else 28)
  else if m == 4 || m == 6 || m == 9 || m == 11 then 30
  else 31

/-- Days in the months strictly before month `m` of year `y`. -/
def daysBeforeMonth (y m : Nat) : Nat :=
  (List.range m).foldl (fun acc i => if 1 ≤ i then acc + daysInMonth y i else acc) 0

/-- Days in the years strictly before year `y` (proleptic Gregorian, matching
`date.toordinal`). -/
def daysBeforeYear (y : Nat) : Nat :=
  365 * (y - 1) + (y - 1) / 4 + (y - 1) / 400 - (y - 1) / 100

/-- A `datetime` as seconds on an absolute axis; `datetime` comparison and
subtraction (`timedelta`) are comparison and subtraction of these numbers. -/
def PyDateTime.toSec (t : PyDateTime) : Nat :=
  (daysBeforeYear t.year + daysBeforeMonth t.year t.month + (t.day - 1)) * 86400
    + t.hour * 3600 + t.minute * 60 + t.second

/-- Zero-padded two-digit field, as produced by `strftime`. -/
def pad2 (n : Nat) : String :=
  if n < 10 then "0" ++ toString n else toString n

/-- Zero-padded four-digit year, as produced by `strftime("%Y")`. -/
def pad4 (n : Nat) : String :=
  if n < 10 then "000" ++ toString n
  else if n < 100 then "00" ++ toString n
  else if n < 1000 then "0" ++ toString n
  else toString n

/-- `strftime("%Y-%m-%d %H:%M:%S")`. -/
def fmtDateTime (t : PyDateTime) : String :=
  pad4 t.year ++ "-" ++ pad2 t.month ++ "-" ++ pad2 t.day ++ " "
    ++ pad2 t.hour ++ ":" ++ pad2 t.minute ++ ":" ++ pad2 t.second

/-- `strftime("%Y-%m-%d")`. -/
def fmtDate (t : PyDateTime) : String :=
  pad4 t.year ++ "-" ++ pad2 t.month ++ "-" ++ pad2 t.day

/-- `strftime("%H:%M:%S")`. -/
def fmtTime (t : PyDateTime) : String :=
  pad2 t.hour ++ ":" ++ pad2 t.minute ++ ":" ++ pad2 t.second

/-- Splitting a character list on a non-empty separator, fuelled so that the
recursion is structural (and hence evaluable inside the kernel).  With
`fuel ≥ length + 1` this is Python's `str.split(sep)`: left-to-right,
non-overlapping matches. -/
def splitSepFuel (sep : List Char) : Nat → List Char → List Char → List (List Char)
  | 0, l, acc => [acc ++ l]
  | _ + 1, [], acc => [acc]
  | fuel + 1, c :: rest, acc =>
    if sep.isPrefixOf (c :: rest) then
      acc :: splitSepFuel sep fuel ((c :: rest).drop sep.length) []
    else
      splitSepFuel sep fuel rest (acc ++ [c])

/-- Python's `s.split(pat)` for a non-empty `pat`. -/
def pySplit (s pat : String) : List String :=
  (splitSepFuel pat.data (s.data.length + 1) s.data []).map (fun l => ⟨l⟩)

/-- Replacing non-overlapping occurrences, fuelled like `splitSepFuel`. -/
def replaceSepFuel (old new : List Char) : Nat → List Char → List Char
  | 0, l => l
  | _ + 1, [] => []
  | fuel + 1, c :: rest =>
    if old.isPrefixOf (c :: rest) then
      new ++ replaceSepFuel old new fuel ((c :: rest).drop old.length)
    else
      c :: replaceSepFuel old new fuel rest

/-- Python's `s.replace(old, new)` for a non-empty `old`. -/
def pyReplace (s old new : String) : String :=
  ⟨replaceSepFuel old.data new.data (s.data.length + 1) s.data⟩

/-- Python's substring test `pat in s` (for a non-empty pattern). -/
def strContains (s pat : String) : Bool :=
  (pySplit s pat).length ≥ 2

/-- Python's `s.count(pat)` for a non-empty pattern. -/
def strCount (s pat : String) : Nat :=
  (pySplit s pat).length - 1

/-- Python's `c in s` for a single character. -/
def strContainsChar (s : String) (c : Char) : Bool :=
  s.data.contains c

/-- Python's `len(s)`. -/
def strLen (s : String) : Nat :=
  s.data.length

/-- Python's whitespace `s.split()` (the inputs reaching it use single
spaces as the only whitespace). -/
def pySplitWs (s : String) : List String :=
  (pySplit s " ").filter (fun p => p ≠ "")

/-- `int(s)` on the digit-only field of a `strptime` directive: `none`
exactly where `strptime` would reject the field. -/
def pyToNat? (s : String) : Option Nat :=
  if s.data ≠ [] && s.data.all Char.isDigit then
    some (s.data.foldl (fun a c => a * 10 + (c.toNat - 48)) 0)
  else none

/-- `datetime.strptime(s, "%Y/%m/%d %H:%M")`, returning `none` where Python
raises `ValueError`; the calendar validation (month range, month length,
leap years) mirrors `strptime`. -/
def strptimeYmdHM (s : String) : Option PyDateTime :=
  match pySplit s " " with
  | [datePart, timePart] =>
    match pySplit datePart "/", pySplit timePart ":" with
    | [ys, ms, ds], [hs, mins] => do
      let y ← pyToNat? ys
      let m ← pyToNat? ms
      let d ← pyToNat? ds
      let h ← pyToNat? hs
      let mi ← pyToNat? mins
      if strLen ys ≤ 4 && 1 ≤ m && m ≤ 12 && 1 ≤ d && d ≤ daysInMonth y m
          && h ≤ 23 && mi ≤ 59 then
        some ⟨y, m, d, h, mi, 0⟩
      else none
    | _, _ => none
  | _ => none

/-- `datetime.strptime(s, "%Y-%m-%d")`. -/
def strptimeYmd (s : String) : Option PyDateTime :=
  match pySplit s "-" with
  | [ys, ms, ds] => do
    let y ← pyToNat? ys
    let m ← pyToNat? ms
    let d ← pyToNat? ds
    if strLen ys ≤ 4 && 1 ≤ m && m ≤ 12 && 1 ≤ d && d ≤ daysInMonth y m then
      some ⟨y, m, d, 0, 0, 0⟩
    else none
  | _ => none

/-- `datetime.fromisoformat` on the shapes the ChinaTimes adapter feeds it:
`YYYY-MM-DD`, optionally followed by `THH:MM` or `THH:MM:SS`, optionally
followed by a `+HH:MM` offset (the offset only tags the value as aware; the
subsequent `strftime` prints the same local fields, so it is dropped here). -/
def fromisoformat (s : String) : Option PyDateTime :=
  let core := fun (datePart timePart : String) => do
    let base ← strptimeYmd datePart
    match pySplit timePart ":" with
    | [hs, mins] => do
      let h ← pyToNat? hs
      let mi ← pyToNat? mins
      if h ≤ 23 && mi ≤ 59 then some { base with hour := h, minute := mi }
      else none
    | [hs, mins, secs] => do
      let h ← pyToNat? hs
      let mi ← pyToNat? mins
      let sec ← pyToNat? secs
      if h ≤ 23 && mi ≤ 59 && sec ≤ 59 then
        some { base with hour := h, minute := mi, second := sec }
      else none
    | _ => none
  match pySplit s "T" with
  | [d] => strptimeYmd d
  | [d, t] =>
    match pySplit t "+" with
    | [t'] => core d t'
    | [t', _off] => core d t'
    | _ => none
  | _ => none

/-! ## Per-source id extraction

Python's built-in `hash` on strings is salted per interpreter process
(`PYTHONHASHSEED`), so a program run determines one hash function but two
different runs generally use two different ones.  The embedding therefore
takes the hash function as an explicit parameter: "the same run" means the
same `pyHash`, "another run" means a possibly different `pyHash`. -/

/-- The deterministic branch of `SETNScraper._extract_news_id`: the text
after `NewsID=` when the URL carries that marker. -/
def SETNScraper.pattern_id (news_url : String) : Option String :=
  if strContains news_url "NewsID=" then
    some ((pySplit news_url "NewsID=").getLastD "")
  else none

/-- `SETNScraper._extract_news_id` (`scrapying/setn_new.py`): the
`NewsID=` suffix, or `str(hash(news_url))` as the fallback. -/
def SETNScraper.extract_news_id (pyHash : String → Int) (news_url : String) : String :=
  match SETNScraper.pattern_id news_url with
  | some i => i
  | none => toString (pyHash news_url)

/-- The deterministic branch of `LTNScraper._extract_news_id`: the text
after `breakingnews/`. -/
def LTNScraper.pattern_id (news_url : String) : Option String :=
  if strContains news_url "breakingnews/" then
    some ((pySplit news_url "breakingnews/").getLastD "")
  else none

/-- `LTNScraper._extract_news_id` (`scrapying/ltn_scraper_orm.py`). -/
def LTNScraper.extract_news_id (pyHash : String → Int) (news_url : String) : String :=
  match LTNScraper.pattern_id news_url with
  | some i => i
  | none => toString (pyHash news_url)

/-- The deterministic branch of `ChinaTimesScraper._extract_news_id`: on a
`/newspapers/` or `/realtimenews/` URL, the first path segment that is
non-empty and starts with `"20"` or contains a dash, with query string and
fragment stripped. -/
def ChinaTimesScraper.pattern_id (news_url : String) : Option String :=
  if strContains news_url "/newspapers/" || strContains news_url "/realtimenews/" then
    ((pySplit news_url "/").find?
        (fun part => part ≠ ""
          && (['2', '0'].isPrefixOf part.data || strContainsChar part '-'))).map
      (fun part => (pySplit ((pySplit part "?").headD "") "#").headD "")
  else none

/-- `ChinaTimesScraper._extract_news_id`
(`scrapying/chinatimes_scraper_orm.py`): the matching path segment, or
`str(hash(news_url))` when the marker or the segment is absent. -/
def ChinaTimesScraper.extract_news_id (pyHash : String → Int) (news_url : String) : String :=
  match ChinaTimesScraper.pattern_id news_url with
  | some i => i
  | none => toString (pyHash news_url)

/-! ## Per-source publish-time normalization -/

/-- `LTNScraper._normalize_date_format` (`scrapying/ltn_scraper_orm.py`).
`now` is the value of `datetime.now()` during the call.  Nothing in the body
can raise, so the surrounding `try/except` is inert. -/
def LTNScraper.normalize_date_format (now : PyDateTime) (date_str : String) : String :=
  if strContainsChar date_str ':' && strLen date_str ≤ 6 then
    fmtDate now ++ " " ++ date_str ++ ":00"
  else if strContains date_str "/" then
    let normalized := pyReplace date_str "/" "-"
    if !(strContainsChar normalized ' ') then
      fmtDate now ++ " " ++ normalized
    else if strCount normalized "-" == 1 then
      toString now.year ++ "-" ++ normalized
    else normalized
  else date_str

/-- `SETNScraper._normalize_date_format` (`scrapying/setn_new.py`).
`current_year` is `self.current_year` (captured at scraper construction) and
`now` is `datetime.now()` during the call.  A `strptime` failure raises into
the outer `except`, which returns `date_str` unchanged; a failure while
re-parsing with the previous year is swallowed by the inner `except` and the
current-year result is returned. -/
def SETNScraper.normalize_date_format (now : PyDateTime) (current_year : Nat)
    (date_str : String) : String :=
  if strContains date_str "/" && strContainsChar date_str ':' then
    if strCount date_str "/" == 1 then
      match strptimeYmdHM (toString current_year ++ "/" ++ date_str) with
      | none => date_str
      | some dt =>
        if dt.toSec > now.toSec && (dt.toSec - now.toSec) / 86400 > 0 then
          match strptimeYmdHM (toString (current_year - 1) ++ "/" ++ date_str) with
          | some dtPrev => fmtDateTime dtPrev
          | none => fmtDateTime dt
        else fmtDateTime dt
    else if strCount date_str "/" == 2 then
      pyReplace date_str "/" "-"
    else date_str
  else date_str

/-- `ChinaTimesScraper._normalize_date_format`
(`scrapying/chinatimes_scraper_orm.py`).  The final regex branch for the
mixed `HH:MMYYYY/MM/DD` shape is unreachable: any string it matches contains
`/` and is consumed by the preceding `/` branch, so after that branch the
function returns `date_str`. -/
def ChinaTimesScraper.normalize_date_format (now : PyDateTime) (date_str : String) : String :=
  if date_str == "" then fmtDateTime now
  else if strContainsChar date_str 'T' && strContainsChar date_str '+' then
    match fromisoformat (pyReplace date_str "+08:00" "") with
    | some dt => fmtDateTime dt
    | none => fmtDateTime now
  else if strContainsChar date_str '-' && strContainsChar date_str ':'
      && (pySplitWs date_str).length == 2 then
    match pySplitWs date_str with
    | [datePart, timePart] =>
      if (pySplit timePart ":").length == 2 then
        datePart ++ " " ++ timePart ++ ":00"
      else date_str
    | _ => date_str
  else if strContains date_str "/" then
    let normalized := pyReplace date_str "/" "-"
    if !(strContainsChar normalized ':') then
      normalized ++ " " ++ fmtTime now
    else normalized
  else date_str

/-! ## The generic ingestion pipeline (`base_scraper_orm.py`) -/

/-- The per-run counters returned by `scrape_news`. -/
structure ScrapeStats where
  total : Nat
  new : Nat
  skipped : Nat
  failed : Nat
deriving Repr, DecidableEq

/-- The fields of the merged list+detail record that end up in the stored
row (the adapter's `_get_news_detail` plus `_convert_to_db_format`). -/
structure DetailFields where
  author : String
  title : String
  publish_time : String
deriving Repr, DecidableEq

/-- One entry of the list parsed from an index page by `_get_news_list`. -/
structure FeedItem where
  url : String
deriving Repr, DecidableEq

/-- The adapter capabilities the generic `scrape_news` calls.  `getDetail` is
a fixed function of the URL: the same feed fetched twice behaves the same
("unchanged remote feed"); `none` models an unrecoverable detail-fetch or
detail-parse failure. -/
structure BaseEnv where
  news_source : String
  extractId : String → String
  getDetail : String → Option DetailFields

namespace BaseNewsScraper

/-- The row handed to the pending buffer for one item:
`_convert_to_db_format` guarantees `news_id = extractId url`,
`news_source = self.news_source` and `url` itself. -/
def mkRow (env : BaseEnv) (it : FeedItem) (d : DetailFields) : NewsRow :=
  { news_id := env.extractId it.url, news_source := env.news_source,
    author := d.author, title := d.title, url := it.url,
    publish_time := d.publish_time }

/-- Mutable state of one `scrape_news` invocation: the counters, the pending
buffer `collected_news`, and (as instrumentation of an observable side
effect) the number of detail-page fetches performed. -/
structure RunState where
  stats : ScrapeStats
  collected : List NewsRow
  fetches : Nat
deriving Repr, DecidableEq

/-- The body of the `for news_item in news_list` loop of
`BaseNewsScraper.scrape_news` (lines 216-259). -/
def processItem (env : BaseEnv) (skipExisting healthyExists : Bool)
    (db : NewsDB) (s : RunState) (it : FeedItem) : RunState :=
  let s := { s with stats := { s.stats with total := s.stats.total + 1 } }
  if it.url == "" then
    { s with stats := { s.stats with failed := s.stats.failed + 1 } }
  else
    let id := env.extractId it.url
    if skipExisting && NewsORMDatabase.news_exists healthyExists db env.news_source id then
      { s with stats := { s.stats with skipped := s.stats.skipped + 1 } }
    else
      match env.getDetail it.url with
      | none =>
        { s with stats := { s.stats with failed := s.stats.failed + 1 },
                 fetches := s.fetches + 1 }
      | some d =>
        { s with collected := s.collected ++ [mkRow env it d],
                 fetches := s.fetches + 1 }

/-- The page loop of `BaseNewsScraper.scrape_news`: a page whose fetch failed
(`none`) is skipped with `continue`; the store is only read, never written,
during the loop. -/
def runPages (env : BaseEnv) (skipExisting healthyExists : Bool) (db : NewsDB) :
    List (Option (List FeedItem)) → RunState → RunState
  | [], s => s
  | none :: ps, s => runPages env skipExisting healthyExists db ps s
  | some items :: ps, s =>
    runPages env skipExisting healthyExists db ps
      (items.foldl (processItem env skipExisting healthyExists db) s)

/-- What a finished run leaves behind: the returned stats, the store state,
and the number of detail fetches performed. -/
structure RunResult where
  stats : ScrapeStats
  db : NewsDB
  fetches : Nat
deriving Repr, DecidableEq

/-- `stats = {'total': 0, 'new': 0, 'skipped': 0, 'failed': 0}` and the empty
pending buffer. -/
def initState : RunState := ⟨⟨0, 0, 0, 0⟩, [], 0⟩

/-- `BaseNewsScraper.scrape_news` (lines 184-280): run the page loop, then
flush the pending buffer with one `insert_news_batch` call; when that call
raises, the except-branch adds the whole pending count to `failed` — there is
no per-record fallback in this class — and `new` keeps its initial `0`. -/
def scrape_news (env : BaseEnv) (skipExisting healthyExists healthyBatch : Bool)
    (pages : List (Option (List FeedItem))) (db : NewsDB) : RunResult :=
  let s := runPages env skipExisting healthyExists db pages initState
  if s.collected.isEmpty then
    ⟨s.stats, db, s.fetches⟩
  else
    match NewsORMDatabase.insert_news_batch healthyBatch db s.collected with
    | Except.ok (n, db') => ⟨{ s.stats with new := n }, db', s.fetches⟩
    | Except.error _ =>
      ⟨{ s.stats with failed := s.stats.failed + s.collected.length }, db, s.fetches⟩

end BaseNewsScraper

/-! ## The SETN pipeline override (`scrapying/setn_new.py`) -/

/-- One entry parsed by `SETNScraper._get_news_list`: title, cleaned URL and
the raw list-page publish time. -/
structure SetnFeedItem where
  url : String
  title : String
  publish_time : String
deriving Repr, DecidableEq

/-- The dict returned by `SETNScraper._get_news_detail` (note the keys:
`detail_title` and `detail_publish_time` deliberately do not collide with the
list-page keys when merged). -/
structure SetnDetail where
  author : String
  detail_title : String
  detail_publish_time : String
deriving Repr, DecidableEq

/-- Ambient data of one SETN run: the wall clock, the year captured at
scraper construction, the process hash seed and the detail fetcher. -/
structure SetnEnv where
  now : PyDateTime
  current_year : Nat
  pyHash : String → Int
  getDetail : String → Option SetnDetail

namespace SETNScraper

/-- `SETNScraper._is_today_news`: parse the first ten characters as
`%Y-%m-%d` and compare with today's date; any failure yields `False`. -/
def is_today_news (now : PyDateTime) (publish_time_str : String) : Bool :=
  if strLen publish_time_str ≥ 10 then
    match strptimeYmd ⟨publish_time_str.data.take 10⟩ with
    | some d => d.year == now.year && d.month == now.month && d.day == now.day
    | none => false
  else false

/-- `SETNScraper._should_process_news` on a record carrying a
`publish_time` entry (every list item and every merged record does). -/
def should_process (env : SetnEnv) (publish_time : String) : Bool :=
  is_today_news env.now
    (normalize_date_format env.now env.current_year publish_time)

/-- `SETNScraper._convert_to_db_format` after the base conversion: fall back
to the detail title when the list title is empty, and normalize the
list-page publish time (or fall back to the detail page's). -/
def convert_to_db_format (env : SetnEnv) (it : SetnFeedItem) (d : SetnDetail)
    (news_id : String) : NewsRow :=
  let title := if it.title ≠ "" then it.title
    else if d.detail_title ≠ "" then d.detail_title else it.title
  let pt := if it.publish_time ≠ "" then
      normalize_date_format env.now env.current_year it.publish_time
    else if d.detail_publish_time ≠ "" then d.detail_publish_time
    else ""
  { news_id := news_id, news_source := "SETN", author := d.author,
    title := title, url := it.url, publish_time := pt }

/-- State of one `SETNScraper.scrape_news` invocation, including the
consecutive-duplicate counter. -/
structure SetnRunState where
  stats : ScrapeStats
  consecutive_duplicates : Nat
  collected : List NewsRow
  fetches : Nat
deriving Repr, DecidableEq

/-- The body of the per-item loop of `SETNScraper.scrape_news` (lines
171-235).  When the consecutive-duplicate counter reaches the threshold the
code executes `return self._finalize_scraping(stats, collected_news)`; no
`_finalize_scraping` method exists anywhere in the repository, so the
statement raises `AttributeError`, the per-item `except Exception` swallows
it as one more `failed`, and the loop continues with the next item — the
intended early termination never happens. -/
def processItem (env : SetnEnv) (skipExisting healthyExists : Bool)
    (maxConsecutiveDuplicates : Nat) (db : NewsDB)
    (s : SetnRunState) (it : SetnFeedItem) : SetnRunState :=
  let s := { s with stats := { s.stats with total := s.stats.total + 1 } }
  if !(should_process env it.publish_time) then
    { s with stats := { s.stats with skipped := s.stats.skipped + 1 } }
  else if it.url == "" then
    { s with stats := { s.stats with failed := s.stats.failed + 1 } }
  else
    let news_id := extract_news_id env.pyHash it.url
    if skipExisting && NewsORMDatabase.news_exists healthyExists db "SETN" news_id then
      let s := { s with
        stats := { s.stats with skipped := s.stats.skipped + 1 },
        consecutive_duplicates := s.consecutive_duplicates + 1 }
      if s.consecutive_duplicates ≥ maxConsecutiveDuplicates then
        { s with stats := { s.stats with failed := s.stats.failed + 1 } }
      else s
    else
      let s := { s with consecutive_duplicates := 0 }
      match env.getDetail it.url with
      | none =>
        { s with stats := { s.stats with failed := s.stats.failed + 1 },
                 fetches := s.fetches + 1 }
      | some d =>
        let s := { s with fetches := s.fetches + 1 }
        if !(should_process env it.publish_time) then
          { s with stats := { s.stats with skipped := s.stats.skipped + 1 } }
        else
          { s with collected :=
              s.collected ++ [convert_to_db_format env it d news_id] }

/-- The page loop of `SETNScraper.scrape_news`: a failed page fetch is
skipped; an empty parsed list breaks out of the loop. -/
def runPages (env : SetnEnv) (skipExisting healthyExists : Bool)
    (maxConsecutiveDuplicates : Nat) (db : NewsDB) :
    List (Option (List SetnFeedItem)) → SetnRunState → SetnRunState
  | [], s => s
  | none :: ps, s =>
    runPages env skipExisting healthyExists maxConsecutiveDuplicates db ps s
  | some items :: ps, s =>
    if items.isEmpty then s
    else
      runPages env skipExisting healthyExists maxConsecutiveDuplicates db ps
        (items.foldl
          (processItem env skipExisting healthyExists maxConsecutiveDuplicates db) s)

/-- `SETNScraper.scrape_news` (lines 129-247).  Both exit paths call the
undefined `_finalize_scraping`; the final one (line 247) is outside every
`try`, so the `AttributeError` escapes the function: the run never returns a
stats dictionary, never inserts the collected rows into the store, and the
caller only observes the exception.  The error payload records the state at
the moment of the crash (observable through logs and network traffic). -/
def scrape_news (env : SetnEnv) (skipExisting : Bool)
    (maxConsecutiveDuplicates : Nat) (healthyExists : Bool)
    (pages : List (Option (List SetnFeedItem))) (db : NewsDB) :
    Except SetnRunState ScrapeStats :=
  Except.error
    (runPages env skipExisting healthyExists maxConsecutiveDuplicates db pages
      ⟨⟨0, 0, 0, 0⟩, 0, [], 0⟩)

end SETNScraper

/-! ## The scheduler (`api/scheduler.py`) and the manual trigger (`api/app.py`) -/

namespace Scheduler

/-- A local wall-clock instant: `day` whole days since some midnight, `sod`
seconds since that day's midnight (`sod < 86400`). -/
structure LocalTime where
  day : Nat
  sod : Nat
deriving Repr, DecidableEq

/-- The initial wait computed at the top of `run_scheduler` (lines 106-117):
only for `interval_hours == 24` is a sleep until the next 02:00 performed
(today's 02:00 if it is still ahead, otherwise tomorrow's); for every other
interval the code falls straight into the `while True` loop and runs the job
immediately, so the initial wait is zero. -/
def initial_wait_seconds (interval_hours : Nat) (now : LocalTime) : Nat :=
  if interval_hours == 24 then
    if now.sod < 7200 then 7200 - now.sod else 86400 + 7200 - now.sod
  else 0

/-- The sleep after each job inside the `while True` loop (line 125):
always a plain `interval_hours * 3600`. -/
def wait_after_run (interval_hours : Nat) : Nat :=
  interval_hours * 3600

/-- Absolute second of the `n`-th trigger (`n = 0` is the first), with runs
taken as instantaneous: the initial wait, then one fixed interval between
any two consecutive triggers. -/
def trigger_time (interval_hours : Nat) (now : LocalTime) (n : Nat) : Nat :=
  now.day * 86400 + now.sod + initial_wait_seconds interval_hours now
    + n * wait_after_run interval_hours

/-- Number of in-flight `run_scraper_job` invocations (each job crawls every
configured source, so two in-flight jobs overlap on every source). -/
structure JobState where
  running : Nat
deriving Repr, DecidableEq

/-- How invocations start and finish.  The scheduler loop starts one on each
trigger; `POST /scraper/run` (`run_scraper_manually`, `api/app.py` lines
190-204) starts one unconditionally via `background_tasks.add_task` — neither
it nor `run_scraper_job` consults any lock or any notion of a run already
being in progress. -/
inductive JobStep : JobState → JobState → Prop
  | scheduled (s : JobState) : JobStep s ⟨s.running + 1⟩
  | manual (s : JobState) : JobStep s ⟨s.running + 1⟩
  | finish (n : Nat) : JobStep ⟨n + 1⟩ ⟨n⟩

/-- States reachable from process start (no job running). -/
inductive JobReachable : JobState → Prop
  | init : JobReachable ⟨0⟩
  | step {s t : JobState} : JobReachable s → JobStep s t → JobReachable t

end Scheduler

/-! ## Reachable store states

Every write to the `news` table in the repository goes through
`insert_news_item` (pipeline single insert, also the one-by-one path of the
scrapers' helpers) or `insert_news_batch` (pipeline flush).  A reachable
store state is therefore the result of applying a sequence of such
operations; for single inserts the pre-insert existence check is allowed to
act on an arbitrary stale snapshot, modelling a concurrent writer landing
between the check and the commit. -/

/-- One write operation against the store. -/
inductive StoreOp
  | insOne (stale : NewsDB) (item : NewsRow)
  | insBatch (items : List NewsRow)

/-- Effect of one write on the table state (results discarded). -/
def applyOp (db : NewsDB) : StoreOp → NewsDB
  | StoreOp.insOne stale item =>
    (NewsORMDatabase.insert_news_item_raced stale db item).2
  | StoreOp.insBatch items =>
    match NewsORMDatabase.insert_news_batch true db items with
    | Except.ok (_, db') => db'
    | Except.error _ => db

/-- Effect of a sequence of writes. -/
def applyOps (db : NewsDB) (ops : List StoreOp) : NewsDB :=
  ops.foldl applyOp db

/-! ## Concrete fixtures for witnesses and counterexamples -/

/-- A one-source adapter whose single item always yields a detail record:
id extraction is the identity on the URL. -/
def envOneItem : BaseEnv :=
  { news_source := "S", extractId := fun u => u,
    getDetail := fun _ => some ⟨"auth", "title", "pt"⟩ }

/-- Two buffer entries sharing the key `("S", "a")`, plus a distinct one. -/
def rowA : NewsRow := ⟨"a", "S", "", "first", "u1", ""⟩

/-- Second entry with the key of `rowA`. -/
def rowA' : NewsRow := ⟨"a", "S", "", "second", "u2", ""⟩

/-- An entry with a fresh key. -/
def rowB : NewsRow := ⟨"b", "S", "", "third", "u3", ""⟩

/-- SETN run fixture: noon of 2025-08-27, detail fetches always succeed. -/
def envC2 : SetnEnv :=
  { now := ⟨2025, 8, 27, 12, 0, 0⟩, current_year := 2025,
    pyHash := fun _ => 0,
    getDetail := fun _ => some ⟨"rep", "dtitle", ""⟩ }

/-- Store already holding SETN items 1 and 2. -/
def dbC2 : NewsDB := ⟨[⟨"1", "SETN", "", "", "", ""⟩, ⟨"2", "SETN", "", "", "", ""⟩]⟩

/-- Feed page for the SETN fixture: two already-stored items followed by a
new one, all carrying today's list-page time. -/
def pageC2 : List SetnFeedItem :=
  [⟨"https://www.setn.com/News.aspx?NewsID=1", "t1", "08/27 10:00"⟩,
   ⟨"https://www.setn.com/News.aspx?NewsID=2", "t2", "08/27 10:00"⟩,
   ⟨"https://www.setn.com/News.aspx?NewsID=3", "t3", "08/27 10:00"⟩]

/-! # Helper lemmas -/

/-- `news_exists` against a healthy store is the committed-state query. -/
theorem news_exists_true (db : NewsDB) (src id : String) :
    NewsORMDatabase.news_exists true db src id = db.existsPair src id := rfl

/-- `news_exists` on a failing store returns `False`. -/
theorem news_exists_false (db : NewsDB) (src id : String) :
    NewsORMDatabase.news_exists false db src id = false := rfl

/-- A successful commit means the candidate table satisfied the constraint. -/
theorem commitRows_some_pairsUnique {db : NewsDB} {pending : List NewsRow}
    {db' : NewsDB} (h : db.commitRows pending = some db') : db'.pairsUnique := by
  unfold NewsDB.commitRows at h
  split at h
  · cases h
    exact ‹((db.rows ++ pending).map NewsRow.key).Nodup›
  · cases h

/-- A successful commit appends exactly the pending rows. -/
theorem commitRows_some_rows {db : NewsDB} {pending : List NewsRow}
    {db' : NewsDB} (h : db.commitRows pending = some db') :
    db'.rows = db.rows ++ pending := by
  unfold NewsDB.commitRows at h
  split at h
  · cases h; rfl
  · cases h

/-- Inverting a successful batch insert: the commit of the filtered pending
list succeeded and the count is its length. -/
theorem insert_news_batch_ok {db db' : NewsDB} {n : Nat} {items : List NewsRow}
    (h : NewsORMDatabase.insert_news_batch true db items = Except.ok (n, db')) :
    db.commitRows
        (items.filter (fun it => !(db.existsPair it.news_source it.news_id)))
      = some db'
    ∧ n = (items.filter
        (fun it => !(db.existsPair it.news_source it.news_id))).length := by
  unfold NewsORMDatabase.insert_news_batch at h
  simp only [if_true] at h
  split at h
  · cases h
    constructor
    · assumption
    · rfl
  · cases h

/-- Membership in a table makes the existence query true. -/
theorem existsPair_of_mem {db : NewsDB} {r : NewsRow} (h : r ∈ db.rows) :
    db.existsPair r.news_source r.news_id = true := by
  unfold NewsDB.existsPair
  exact List.any_eq_true.mpr ⟨r, h, by simp⟩

/-- Appending rows preserves a positive existence query. -/
theorem existsPair_append {db : NewsDB} {pending : List NewsRow} {src id : String}
    (h : db.existsPair src id = true) :
    (NewsDB.mk (db.rows ++ pending)).existsPair src id = true := by
  unfold NewsDB.existsPair at h ⊢
  rcases List.any_eq_true.mp h with ⟨r, hr, hp⟩
  exact List.any_eq_true.mpr ⟨r, List.mem_append_left _ hr, hp⟩

namespace BaseNewsScraper

/-- The item step never touches the `new` counter. -/
theorem processItem_new (env : BaseEnv) (se he : Bool) (db : NewsDB)
    (s : RunState) (it : FeedItem) :
    (processItem env se he db s it).stats.new = s.stats.new := by
  unfold processItem
  dsimp only
  repeat' split
  all_goals rfl

/-- Folding the item step never touches the `new` counter. -/
theorem foldl_processItem_new (env : BaseEnv) (se he : Bool) (db : NewsDB)
    (items : List FeedItem) :
    ∀ s : RunState,
      (items.foldl (processItem env se he db) s).stats.new = s.stats.new := by
  induction items with
  | nil => intro s; rfl
  | cons a l ih =>
    intro s
    rw [List.foldl_cons, ih, processItem_new]

/-- The page loop never touches the `new` counter. -/
theorem runPages_new (env : BaseEnv) (se he : Bool) (db : NewsDB) :
    ∀ (pages : List (Option (List FeedItem))) (s : RunState),
      (runPages env se he db pages s).stats.new = s.stats.new := by
  intro pages
  induction pages with
  | nil => intro s; rfl
  | cons p ps ih =>
    intro s
    cases p with
    | none => simp only [runPages]; exact ih s
    | some items =>
      simp only [runPages]
      rw [ih, foldl_processItem_new]

/-- With the existence check failing (store down), the item step never
increments `skipped`. -/
theorem processItem_skipped_down (env : BaseEnv) (se : Bool) (db : NewsDB)
    (s : RunState) (it : FeedItem) :
    (processItem env se false db s it).stats.skipped = s.stats.skipped := by
  unfold processItem
  dsimp only
  simp only [news_exists_false, Bool.and_false, Bool.false_eq_true, if_false]
  repeat' split
  all_goals rfl

/-- With the existence check failing, the whole page loop never increments
`skipped`. -/
theorem runPages_skipped_down (env : BaseEnv) (se : Bool) (db : NewsDB) :
    ∀ (pages : List (Option (List FeedItem))) (s : RunState),
      (runPages env se false db pages s).stats.skipped = s.stats.skipped := by
  intro pages
  induction pages with
  | nil => intro s; rfl
  | cons p ps ih =>
    intro s
    cases p with
    | none => simp only [runPages]; exact ih s
    | some items =>
      simp only [runPages]
      rw [ih]
      induction items generalizing s with
      | nil => rfl
      | cons a l ihl =>
        rw [List.foldl_cons, ihl, processItem_skipped_down]

end BaseNewsScraper

/-! # Claim theorems -/

/-- C1 (counterexample): with the end-of-run batch insert failing as a whole,
the pipeline returns `new = 0` and counts the single pending record as
failed, although that record would succeed as an individual insert — so
`new` does not equal the number of pending records that individually
succeed, and no per-record fallback happens. -/
theorem C1_counterexample :
    (BaseNewsScraper.scrape_news envOneItem true true false [some [⟨"u"⟩]] ⟨[]⟩).stats.new = 0 ∧
    (BaseNewsScraper.scrape_news envOneItem true true false [some [⟨"u"⟩]] ⟨[]⟩).stats.failed = 1 ∧
    (NewsORMDatabase.insert_news_item ⟨[]⟩
        (BaseNewsScraper.mkRow envOneItem ⟨"u"⟩ ⟨"auth", "title", "pt"⟩)).1 = true := by
  refine ⟨?_, ?_, ?_⟩ <;> rfl

/-- C1 (amended): when the end-of-run batch insert raises as a whole, the
pipeline performs no per-record fallback: it returns `new = 0`, leaves the
store untouched, and adds the entire pending count to `failed`. -/
theorem C1_no_per_record_fallback (env : BaseEnv) (skipExisting healthyExists : Bool)
    (pages : List (Option (List FeedItem))) (db : NewsDB) :
    (BaseNewsScraper.scrape_news env skipExisting healthyExists false pages db).stats.new = 0 ∧
    (BaseNewsScraper.scrape_news env skipExisting healthyExists false pages db).db = db ∧
    (BaseNewsScraper.scrape_news env skipExisting healthyExists false pages db).stats.failed =
      (BaseNewsScraper.runPages env skipExisting healthyExists db pages
        BaseNewsScraper.initState).stats.failed
      + (BaseNewsScraper.runPages env skipExisting healthyExists db pages
          BaseNewsScraper.initState).collected.length := by
  have hnew := BaseNewsScraper.runPages_new env skipExisting healthyExists db pages
    BaseNewsScraper.initState
  unfold BaseNewsScraper.scrape_news
  dsimp only
  simp only [NewsORMDatabase.insert_news_batch, Bool.false_eq_true, if_false]
  split
  · next hemp =>
    refine ⟨hnew, rfl, ?_⟩
    have hcol : (BaseNewsScraper.runPages env skipExisting healthyExists db pages
        BaseNewsScraper.initState).collected = [] := by
      cases hc : (BaseNewsScraper.runPages env skipExisting healthyExists db pages
          BaseNewsScraper.initState).collected
      · rfl
      · rw [hc] at hemp; cases hemp
    rw [hcol]
    rfl
  · exact ⟨hnew, rfl, rfl⟩

/-- C3 (counterexample): a pending buffer with two entries sharing the key
`("S", "a")` plus one fresh entry, against an empty store: the batch insert
raises (`IntegrityError` at commit, rolled back), so it does not store
exactly one record for the duplicated pair, and the rest of the buffer is
not inserted either. -/
theorem C3_counterexample :
    rowA.key = rowA'.key ∧ rowA ≠ rowA' ∧
    NewsORMDatabase.insert_news_batch true ⟨[]⟩ [rowA, rowA', rowB]
      = Except.error () :=
  ⟨rfl, by decide, rfl⟩

/-- C3 (amended): when the pending buffer contains two entries with the same
`(news_source, news_id)` pair that is not already stored, the per-item check
(which sees only committed rows, autoflush being off) admits both, the single
commit violates the unique constraint, and `insert_news_batch` raises after
the rollback: no record of the buffer is stored. -/
theorem C3_intra_batch_duplicate_aborts (db : NewsDB) (items : List NewsRow)
    (hdup : ¬ ((items.filter
        (fun it => !(db.existsPair it.news_source it.news_id))).map NewsRow.key).Nodup) :
    NewsORMDatabase.insert_news_batch true db items = Except.error () := by
  have hnone : db.commitRows
      (items.filter (fun it => !(db.existsPair it.news_source it.news_id))) = none := by
    unfold NewsDB.commitRows
    rw [if_neg]
    intro hcl
    rw [List.map_append] at hcl
    exact hdup (List.nodup_append.mp hcl).2.1
  unfold NewsORMDatabase.insert_news_batch
  simp only [if_true]
  rw [hnone]

/-- C3 (witness): the amended theorem applied to a two-entry buffer sharing
one key against the empty store. -/
theorem C3_witness :
    (¬ (([rowA, rowA'].filter
        (fun it => !((⟨[]⟩ : NewsDB).existsPair it.news_source it.news_id))).map
          NewsRow.key).Nodup) ∧
    NewsORMDatabase.insert_news_batch true ⟨[]⟩ [rowA, rowA'] = Except.error () :=
  ⟨by decide, C3_intra_batch_duplicate_aborts ⟨[]⟩ [rowA, rowA'] (by decide)⟩

/-- C6 (counterexample): at 09:00 with `intervalHours = 6`, the initial wait
is zero — the loop runs the job immediately — not the `6 * 3600` seconds the
claim asserts for every non-24 interval. -/
theorem C6_counterexample :
    Scheduler.initial_wait_seconds 6 ⟨0, 32400⟩ = 0 ∧ (0 : Nat) ≠ 6 * 3600 := by
  exact ⟨rfl, by decide⟩

/-- C6 (amended): with `intervalHours = 24` the first trigger lands on 02:00
(today when 02:00 is still ahead, otherwise tomorrow); with any other
interval the initial wait is zero and the first trigger is immediate; after
the first trigger, consecutive triggers are one plain fixed interval apart. -/
theorem C6_wait_characterization (ih : Nat) (now : Scheduler.LocalTime)
    (h : now.sod < 86400) :
    (ih = 24 →
      (now.sod < 7200 →
        Scheduler.trigger_time ih now 0 = now.day * 86400 + 7200) ∧
      (7200 ≤ now.sod →
        Scheduler.trigger_time ih now 0 = (now.day + 1) * 86400 + 7200)) ∧
    (ih ≠ 24 →
      Scheduler.initial_wait_seconds ih now = 0 ∧
      Scheduler.trigger_time ih now 0 = now.day * 86400 + now.sod) ∧
    (∀ n, Scheduler.trigger_time ih now (n + 1)
      = Scheduler.trigger_time ih now n + ih * 3600) := by
  refine ⟨?_, ?_, ?_⟩
  · rintro rfl
    unfold Scheduler.trigger_time Scheduler.initial_wait_seconds Scheduler.wait_after_run
    constructor <;> intro hs <;> split_ifs with h1 <;>
      first | omega | exact absurd rfl h1
  · intro hne
    have hb : (ih == 24) = false := by simpa using hne
    unfold Scheduler.trigger_time Scheduler.initial_wait_seconds Scheduler.wait_after_run
    rw [hb]
    simp
  · intro n
    unfold Scheduler.trigger_time Scheduler.wait_after_run
    ring

/-- C6 (witness): the amended theorem at 01:00 with a 24-hour interval — the
first trigger is the same day's 02:00, matching the spec's example. -/
theorem C6_witness :
    (⟨0, 3600⟩ : Scheduler.LocalTime).sod < 86400 ∧
    Scheduler.trigger_time 24 ⟨0, 3600⟩ 0 = 0 * 86400 + 7200 :=
  ⟨by decide, ((C6_wait_characterization 24 ⟨0, 3600⟩ (by decide)).1 rfl).1 (by decide)⟩

/-- One write step preserves the uniqueness invariant, even when the
single-insert pre-check ran against an arbitrary stale snapshot: the commit
itself refuses any transaction that would duplicate a key. -/
theorem applyOp_pairsUnique (db : NewsDB) (op : StoreOp) (h : db.pairsUnique) :
    (applyOp db op).pairsUnique := by
  cases op with
  | insOne stale item =>
    simp only [applyOp]
    unfold NewsORMDatabase.insert_news_item_raced
    split
    · exact h
    · rcases hc : db.commitRows [item] with _ | db'
      · exact h
      · exact commitRows_some_pairsUnique hc
  | insBatch items =>
    simp only [applyOp]
    rcases hb : NewsORMDatabase.insert_news_batch true db items with e | p
    · exact h
    · rcases p with ⟨n, db'⟩
      exact commitRows_some_pairsUnique (insert_news_batch_ok hb).1

/-- C7: at every reachable store state no two rows share
`(news_source, news_id)` — any sequence of single inserts (with possibly
stale pre-checks, i.e. racing writers) and batch inserts preserves the
invariant, because the unique constraint is enforced at every commit. -/
theorem C7_unique_invariant (db : NewsDB) (ops : List StoreOp)
    (h : db.pairsUnique) : (applyOps db ops).pairsUnique := by
  induction ops generalizing db with
  | nil => exact h
  | cons op rest ih =>
    unfold applyOps
    rw [List.foldl_cons]
    exact ih _ (applyOp_pairsUnique db op h)

/-- C7 (witness): a stale-checked single insert followed by a batch insert
that repeats an existing key, starting from the empty store. -/
theorem C7_witness :
    (⟨[]⟩ : NewsDB).pairsUnique ∧
    (applyOps ⟨[]⟩ [StoreOp.insOne ⟨[]⟩ rowA,
      StoreOp.insBatch [rowA', rowB]]).pairsUnique :=
  ⟨by decide, C7_unique_invariant ⟨[]⟩ _ (by decide)⟩

/-- C9 (counterexample): a state with two concurrently running scraper jobs
is reachable — the scheduler starts one and a manual trigger immediately
starts another, with no lock consulted — so runs against the same source do
overlap. -/
theorem C9_counterexample :
    Scheduler.JobReachable ⟨2⟩ ∧ ¬((2 : Nat) ≤ 1) :=
  ⟨Scheduler.JobReachable.step
      (Scheduler.JobReachable.step Scheduler.JobReachable.init
        (Scheduler.JobStep.scheduled ⟨0⟩))
      (Scheduler.JobStep.manual ⟨1⟩),
    by decide⟩

/-- C9 (amended): no per-source run lock exists; `run_scraper_manually`
enqueues `run_scraper_job` unconditionally, so any number of overlapping
runs over the same sources is reachable. -/
theorem C9_no_serialization : ∀ n : Nat, Scheduler.JobReachable ⟨n⟩ := by
  intro n
  induction n with
  | zero => exact Scheduler.JobReachable.init
  | succ k ih => exact ih.step (Scheduler.JobStep.manual ⟨k⟩)

/-- C10: every read of the store is total — on a failing database,
`news_exists` returns `False`, `get_news_count` returns `0`,
`get_news_count_by_source` and `get_recent_news` return `[]` — and a failing
existence check during a pipeline run makes every item look new: the run
skips nothing. -/
theorem C10_reads_never_raise (db : NewsDB) (src id : String) (limit : Nat)
    (env : BaseEnv) (skipExisting healthyBatch : Bool)
    (pages : List (Option (List FeedItem))) :
    NewsORMDatabase.news_exists false db src id = false ∧
    NewsORMDatabase.get_news_count false db = 0 ∧
    NewsORMDatabase.get_news_count_by_source false db = [] ∧
    NewsORMDatabase.get_recent_news false db limit = [] ∧
    (BaseNewsScraper.scrape_news env skipExisting false healthyBatch pages
      db).stats.skipped = 0 := by
  have hs := BaseNewsScraper.runPages_skipped_down env skipExisting db pages
    BaseNewsScraper.initState
  refine ⟨rfl, rfl, rfl, rfl, ?_⟩
  unfold BaseNewsScraper.scrape_news
  dsimp only
  split
  · exact hs
  · split
    · exact hs
    · exact hs

/-- C5 (counterexample): on a URL without its source's marker the id falls
back to `str(hash(url))`; Python's string hash is salted per process, so two
runs (two hash functions) give two different ids for the same URL — the
fallback is neither a content hash nor stable across runs. -/
theorem C5_counterexample :
    SETNScraper.extract_news_id (fun _ => 0) "https://www.setn.com/x" = "0" ∧
    SETNScraper.extract_news_id (fun _ => 1) "https://www.setn.com/x" = "1" ∧
    ("0" : String) ≠ "1" := by
  refine ⟨by decide, by decide, by decide⟩

/-- C5 (amended): on URLs matching the per-source pattern, the extracted id
is a function of the URL alone, identical under any two process hash seeds
(hence stable across calls and runs); only the fallback path returns
`str(hash(url))`, whose value depends on the per-process seed. -/
theorem C5_pattern_ids_seed_independent (h1 h2 : String → Int) (url : String) :
    (∀ i, SETNScraper.pattern_id url = some i →
      SETNScraper.extract_news_id h1 url = i ∧
      SETNScraper.extract_news_id h2 url = i) ∧
    (∀ i, LTNScraper.pattern_id url = some i →
      LTNScraper.extract_news_id h1 url = i ∧
      LTNScraper.extract_news_id h2 url = i) ∧
    (∀ i, ChinaTimesScraper.pattern_id url = some i →
      ChinaTimesScraper.extract_news_id h1 url = i ∧
      ChinaTimesScraper.extract_news_id h2 url = i) ∧
    (SETNScraper.pattern_id url = none →
      SETNScraper.extract_news_id h1 url = toString (h1 url)) := by
  refine ⟨fun i hi => ?_, fun i hi => ?_, fun i hi => ?_, fun hn => ?_⟩
  · unfold SETNScraper.extract_news_id
    rw [hi]
    exact ⟨rfl, rfl⟩
  · unfold LTNScraper.extract_news_id
    rw [hi]
    exact ⟨rfl, rfl⟩
  · unfold ChinaTimesScraper.extract_news_id
    rw [hi]
    exact ⟨rfl, rfl⟩
  · unfold SETNScraper.extract_news_id
    rw [hn]

/-- C5 (witness): the amended theorem on a real SETN URL carrying the
`NewsID=` marker, under two distinct hash seeds. -/
theorem C5_witness :
    SETNScraper.pattern_id "https://www.setn.com/News.aspx?NewsID=1377212"
      = some "1377212" ∧
    SETNScraper.extract_news_id (fun _ => 5)
      "https://www.setn.com/News.aspx?NewsID=1377212" = "1377212" :=
  ⟨by decide,
    ((C5_pattern_ids_seed_independent (fun _ => 5) (fun _ => 7)
      "https://www.setn.com/News.aspx?NewsID=1377212").1 "1377212" (by decide)).1⟩

/-- C8 (counterexample): at 10:00 on 2024-08-27 the raw time
`"08/27 14:02"` normalizes to `"2024-08-27 14:02:00"` although that instant
is in the future relative to now — the SETN code moves to the prior year
only when the parsed time is at least one full day ahead
(`(dt - now).days > 0`), not "whenever the result would fall in the
future". -/
theorem C8_counterexample :
    SETNScraper.normalize_date_format ⟨2024, 8, 27, 10, 0, 0⟩ 2024 "08/27 14:02"
      = "2024-08-27 14:02:00" ∧
    PyDateTime.toSec ⟨2024, 8, 27, 14, 2, 0⟩
      > PyDateTime.toSec ⟨2024, 8, 27, 10, 0, 0⟩ ∧
    ("2024-08-27 14:02:00" : String) ≠ "2023-08-27 14:02:00" := by
  refine ⟨by decide, by decide, by decide⟩

/-- C8 (amended): for every wall clock `now` — LTN maps the bare time
`"13:53"` to today's date plus `13:53:00`; SETN maps `"08/27 14:02"` to the
current-year instant, moved to the prior year exactly when that instant is at
least one full day in the future; ChinaTimes maps the ISO string to
`"2025-08-27 11:45:34"` and the bare date `"2025/08/27"` to the date plus the
current time; LTN additionally maps `"08/27 14:02"` to a current-year string
without a seconds field. -/
theorem C8_normalization_shapes (now : PyDateTime) :
    (LTNScraper.normalize_date_format now "13:53"
      = fmtDate now ++ " 13:53:00") ∧
    (SETNScraper.normalize_date_format now 2024 "08/27 14:02"
      = if now.toSec + 86400 ≤ PyDateTime.toSec ⟨2024, 8, 27, 14, 2, 0⟩
        then "2023-08-27 14:02:00" else "2024-08-27 14:02:00") ∧
    (ChinaTimesScraper.normalize_date_format now "2025-08-27T11:45:34+08:00"
      = "2025-08-27 11:45:34") ∧
    (ChinaTimesScraper.normalize_date_format now "2025/08/27"
      = "2025-08-27 " ++ fmtTime now) ∧
    (LTNScraper.normalize_date_format now "08/27 14:02"
      = toString now.year ++ "-08-27 14:02") := by
  refine ⟨?_, ?_, ?_, ?_, ?_⟩
  · unfold LTNScraper.normalize_date_format
    rw [if_pos (by decide)]
    simp only [String.append_assoc]
    congr 1
  · unfold SETNScraper.normalize_date_format
    rw [if_pos (by decide), if_pos (by decide),
      show strptimeYmdHM (toString 2024 ++ "/" ++ "08/27 14:02")
        = some ⟨2024, 8, 27, 14, 2, 0⟩ from by decide]
    dsimp only
    rw [show PyDateTime.toSec ⟨2024, 8, 27, 14, 2, 0⟩ = 63860364120 from by decide]
    rcases Nat.lt_or_ge 63860364120 (now.toSec + 86400) with hc | hc
    · rw [if_neg (by simp only [Bool.and_eq_true, decide_eq_true_eq]; omega),
        if_neg (by omega)]
      decide
    · rw [if_pos (by simp only [Bool.and_eq_true, decide_eq_true_eq]; omega),
        show strptimeYmdHM (toString (2024 - 1) ++ "/" ++ "08/27 14:02")
          = some ⟨2023, 8, 27, 14, 2, 0⟩ from by decide]
      dsimp only
      rw [if_pos (by omega)]
      decide
  · unfold ChinaTimesScraper.normalize_date_format
    rw [if_neg (by decide), if_pos (by decide),
      show fromisoformat (pyReplace "2025-08-27T11:45:34+08:00" "+08:00" "")
        = some ⟨2025, 8, 27, 11, 45, 34⟩ from by decide]
    dsimp only
    decide
  · unfold ChinaTimesScraper.normalize_date_format
    rw [if_neg (by decide), if_neg (by decide), if_neg (by decide),
      if_pos (by decide)]
    dsimp only
    rw [if_pos (by decide)]
    congr 1
  · unfold LTNScraper.normalize_date_format
    rw [if_neg (by decide), if_pos (by decide)]
    dsimp only
    rw [if_neg (by decide), if_pos (by decide)]
    simp only [String.append_assoc]
    congr 1

/-- A key present before a successful commit is present after it. -/
theorem existsPair_commit_mono {db db2 : NewsDB} {pending : List NewsRow}
    (hc : db.commitRows pending = some db2) {src id : String}
    (h : db.existsPair src id = true) : db2.existsPair src id = true := by
  have hr := commitRows_some_rows hc
  unfold NewsDB.existsPair at h ⊢
  rw [hr]
  rcases List.any_eq_true.mp h with ⟨r, hrm, hp⟩
  exact List.any_eq_true.mpr ⟨r, List.mem_append_left _ hrm, hp⟩

/-- After a successful batch insert, every key of the submitted buffer is
present in the store (it was either present before or just committed). -/
theorem insert_news_batch_ok_covers {db db2 : NewsDB} {n : Nat}
    {items : List NewsRow}
    (hb : NewsORMDatabase.insert_news_batch true db items = Except.ok (n, db2)) :
    ∀ r ∈ items, db2.existsPair r.news_source r.news_id = true := by
  obtain ⟨hc, -⟩ := insert_news_batch_ok hb
  intro r hr
  by_cases hex : db.existsPair r.news_source r.news_id = true
  · exact existsPair_commit_mono hc hex
  · have hfx : db.existsPair r.news_source r.news_id = false := by
      cases hfx : db.existsPair r.news_source r.news_id
      · rfl
      · exact absurd hfx hex
    have hrp : r ∈ items.filter
        (fun it => !(db.existsPair it.news_source it.news_id)) := by
      rw [List.mem_filter]
      refine ⟨hr, ?_⟩
      rw [hfx]
      rfl
    have hrows := commitRows_some_rows hc
    unfold NewsDB.existsPair
    rw [hrows]
    exact List.any_eq_true.mpr ⟨r, List.mem_append_right _ hrp, by simp⟩

namespace BaseNewsScraper

/-- Rows in the pending buffer were absent from the store at their
existence check (with a healthy store and `skip_existing` on). -/
theorem processItem_collected_fresh (env : BaseEnv) (db : NewsDB)
    (s : RunState) (it : FeedItem)
    (hs : ∀ r ∈ s.collected, db.existsPair r.news_source r.news_id = false) :
    ∀ r ∈ (processItem env true true db s it).collected,
      db.existsPair r.news_source r.news_id = false := by
  unfold processItem
  dsimp only
  split
  · exact hs
  · split
    · exact hs
    · next hnex =>
      split
      · exact hs
      · intro r hr
        rcases List.mem_append.mp hr with h1 | h2
        · exact hs r h1
        · have hre : r = mkRow env it ‹DetailFields› := List.mem_singleton.mp h2
          subst hre
          simp only [news_exists_true, Bool.true_and] at hnex
          unfold mkRow
          dsimp only
          cases hfx : db.existsPair env.news_source (env.extractId it.url)
          · rfl
          · exact absurd hfx hnex

/-- `processItem_collected_fresh` through a whole page. -/
theorem foldl_collected_fresh (env : BaseEnv) (db : NewsDB)
    (items : List FeedItem) :
    ∀ s : RunState,
      (∀ r ∈ s.collected, db.existsPair r.news_source r.news_id = false) →
      ∀ r ∈ (items.foldl (processItem env true true db) s).collected,
        db.existsPair r.news_source r.news_id = false := by
  induction items with
  | nil => intro s hs; exact hs
  | cons a l ih =>
    intro s hs
    rw [List.foldl_cons]
    exact ih _ (processItem_collected_fresh env db s a hs)

/-- `processItem_collected_fresh` through the whole run. -/
theorem runPages_collected_fresh (env : BaseEnv) (db : NewsDB) :
    ∀ (pages : List (Option (List FeedItem))) (s : RunState),
      (∀ r ∈ s.collected, db.existsPair r.news_source r.news_id = false) →
      ∀ r ∈ (runPages env true true db pages s).collected,
        db.existsPair r.news_source r.news_id = false := by
  intro pages
  induction pages with
  | nil => intro s hs; exact hs
  | cons p ps ih =>
    intro s hs
    cases p with
    | none => simp only [runPages]; exact ih s hs
    | some items =>
      simp only [runPages]
      exact ih _ (foldl_collected_fresh env db items s hs)

/-- Running one item against a store with more keys collects a sub-buffer:
everything the bigger store still collects, the smaller store collected
too. -/
theorem processItem_collected_mono (env : BaseEnv) (db db2 : NewsDB)
    (hmono : ∀ src id, db.existsPair src id = true → db2.existsPair src id = true)
    (s s2 : RunState) (hsub : s2.collected.Sublist s.collected) (it : FeedItem) :
    ((processItem env true true db2 s2 it).collected).Sublist
      ((processItem env true true db s it).collected) := by
  unfold processItem
  dsimp only
  by_cases hurl : (it.url == "") = true
  · rw [if_pos hurl, if_pos hurl]
    exact hsub
  · rw [if_neg hurl, if_neg hurl]
    by_cases hex2 :
        (true && NewsORMDatabase.news_exists true db2 env.news_source
          (env.extractId it.url)) = true
    · rw [if_pos hex2]
      by_cases hex :
          (true && NewsORMDatabase.news_exists true db env.news_source
            (env.extractId it.url)) = true
      · rw [if_pos hex]
        exact hsub
      · rw [if_neg hex]
        cases hd : env.getDetail it.url
        · simp only [hd]
          exact hsub
        · simp only [hd]
          exact hsub.trans (List.sublist_append_left _ _)
    · have hex :
          ¬(true && NewsORMDatabase.news_exists true db env.news_source
            (env.extractId it.url)) = true := by
        intro hx
        apply hex2
        simp only [news_exists_true, Bool.true_and] at hx ⊢
        exact hmono _ _ hx
      rw [if_neg hex2, if_neg hex]
      cases hd : env.getDetail it.url
      · simp only [hd]
        exact hsub
      · simp only [hd]
        exact hsub.append (List.Sublist.refl _)

/-- `processItem_collected_mono` through a whole page. -/
theorem foldl_collected_mono (env : BaseEnv) (db db2 : NewsDB)
    (hmono : ∀ src id, db.existsPair src id = true → db2.existsPair src id = true)
    (items : List FeedItem) :
    ∀ s s2 : RunState, s2.collected.Sublist s.collected →
      ((items.foldl (processItem env true true db2) s2).collected).Sublist
        ((items.foldl (processItem env true true db) s).collected) := by
  induction items with
  | nil => intro s s2 hsub; exact hsub
  | cons a l ih =>
    intro s s2 hsub
    rw [List.foldl_cons, List.foldl_cons]
    exact ih _ _ (processItem_collected_mono env db db2 hmono s s2 hsub a)

/-- `processItem_collected_mono` through the whole run. -/
theorem runPages_collected_mono (env : BaseEnv) (db db2 : NewsDB)
    (hmono : ∀ src id, db.existsPair src id = true → db2.existsPair src id = true) :
    ∀ (pages : List (Option (List FeedItem))) (s s2 : RunState),
      s2.collected.Sublist s.collected →
      ((runPages env true true db2 pages s2).collected).Sublist
        ((runPages env true true db pages s).collected) := by
  intro pages
  induction pages with
  | nil => intro s s2 hsub; exact hsub
  | cons p ps ih =>
    intro s s2 hsub
    cases p with
    | none => simp only [runPages]; exact ih s s2 hsub
    | some items =>
      simp only [runPages]
      exact ih _ _ (foldl_collected_mono env db db2 hmono items s s2 hsub)

/-- If a second store covers everything the first run's buffer collected and
at least its keys, a run against the second store collects nothing and
reports `new = 0`. -/
theorem scrape_on_covered (env : BaseEnv)
    (pages : List (Option (List FeedItem))) (db db2 : NewsDB)
    (hmono : ∀ src id, db.existsPair src id = true → db2.existsPair src id = true)
    (hcov : ∀ r ∈ (runPages env true true db pages initState).collected,
      db2.existsPair r.news_source r.news_id = true) :
    (scrape_news env true true true pages db2).stats.new = 0 := by
  have hsub := runPages_collected_mono env db db2 hmono pages
    initState initState (List.Sublist.refl _)
  have hfresh := runPages_collected_fresh env db2 pages initState
    (by intro r hr; cases hr)
  have hnil : (runPages env true true db2 pages initState).collected = [] := by
    rw [List.eq_nil_iff_forall_not_mem]
    intro r hr
    have h1 := hfresh r hr
    have h2 := hcov r (hsub.subset hr)
    rw [h1] at h2
    cases h2
  unfold scrape_news
  dsimp only
  rw [if_pos (by rw [hnil]; rfl)]
  exact runPages_new env true true db2 pages initState

end BaseNewsScraper

/-- C4: running the pipeline twice in succession against an unchanged feed
(same pages, same deterministic detail fetcher, healthy store) yields
`new = 0` on the second run: every item the second run enumerates is either
skipped at the pre-insert existence check or was never insertable the first
time either, so no record is written twice. -/
theorem C4_second_run_inserts_nothing (env : BaseEnv)
    (pages : List (Option (List FeedItem))) (db : NewsDB) :
    (BaseNewsScraper.scrape_news env true true true pages
      (BaseNewsScraper.scrape_news env true true true pages db).db).stats.new
      = 0 := by
  have hnew := BaseNewsScraper.runPages_new env true true db pages
    BaseNewsScraper.initState
  by_cases hemp : (BaseNewsScraper.runPages env true true db pages
      BaseNewsScraper.initState).collected.isEmpty = true
  · have hdb : (BaseNewsScraper.scrape_news env true true true pages db).db = db := by
      unfold BaseNewsScraper.scrape_news
      dsimp only
      rw [if_pos hemp]
    rw [hdb]
    unfold BaseNewsScraper.scrape_news
    dsimp only
    rw [if_pos hemp]
    exact hnew
  · rcases hb : NewsORMDatabase.insert_news_batch true db
        (BaseNewsScraper.runPages env true true db pages
          BaseNewsScraper.initState).collected with e | p
    · have hdb : (BaseNewsScraper.scrape_news env true true true pages db).db
          = db := by
        unfold BaseNewsScraper.scrape_news
        dsimp only
        rw [if_neg hemp]
        simp only [hb]
      rw [hdb]
      unfold BaseNewsScraper.scrape_news
      dsimp only
      rw [if_neg hemp]
      simp only [hb]
      exact hnew
    · rcases p with ⟨n, db2⟩
      have hdb : (BaseNewsScraper.scrape_news env true true true pages db).db
          = db2 := by
        unfold BaseNewsScraper.scrape_news
        dsimp only
        rw [if_neg hemp]
        simp only [hb]
      rw [hdb]
      exact BaseNewsScraper.scrape_on_covered env pages db db2
        (fun src id hx => existsPair_commit_mono (insert_news_batch_ok hb).1 hx)
        (insert_news_batch_ok_covers hb)

/-- C2 (code-bug evaluation): with `maxConsecutiveDuplicates = 2` against a
page holding two already-stored today items followed by one new item, the
run does not stop early: reaching the threshold executes
`return self._finalize_scraping(...)`, which raises `AttributeError` (the
method exists nowhere in the repository); the per-item handler swallows it
as a `failed`, the loop continues, the third item's detail page IS fetched
(`fetches = 1`, `total = 3`), and at the end the same `AttributeError`
escapes `scrape_news` — the run returns no stats at all (and, in general,
every SETN run ends in this exception, never inserting its buffer). -/
theorem C2_missing_finalize_breaks_early_stop :
    SETNScraper.scrape_news envC2 true 2 true [some pageC2] dbC2 =
      Except.error ⟨⟨3, 0, 2, 1⟩, 0,
        [⟨"3", "SETN", "rep", "t3", "https://www.setn.com/News.aspx?NewsID=3",
          "2025-08-27 10:00:00"⟩], 1⟩ ∧
    (∀ (env : SetnEnv) (se : Bool) (mcd : Nat) (he : Bool)
        (pages : List (Option (List SetnFeedItem))) (db : NewsDB),
      ∃ s, SETNScraper.scrape_news env se mcd he pages db = Except.error s) :=
  ⟨rfl, fun _ _ _ _ _ _ => ⟨_, rfl⟩⟩
